import Mathlib

/-!
Verification of the Interview Session Orchestrator of the
`ai-interview-assistant` repository, shallowly embedded from
`src/app/main.py`, `src/app/llm.py` and `src/app/schemas.py`.

Python floats are modelled as rationals (all the comparisons in the source
are far from any double-rounding boundary at realistic list sizes), Python
`int` as `Int`, Python lists as `List`, optional values as `Option`, and
the `or`-defaulting idiom (`x or d`, which replaces every falsy value) by
explicit helpers.  External AI calls (transcription, the reasoning model,
speech synthesis) are inputs of the per-turn step function; speech
synthesis and its safety timers are concurrency-only and are not part of
the embedded state machine.
-/

/-!
The Python string primitives used by the orchestrator (`.strip()`,
`.lower()`, `.split()`, slicing, `join`, substring containment) are
defined here over the character list of the string, so that every
definition evaluates by kernel reduction on concrete inputs.
-/

/-- Python `str.strip()`: drop leading and trailing whitespace
(`src/app/main.py:456`, `908`). -/
def pyStrip (s : String) : String :=
  ⟨((s.toList.dropWhile Char.isWhitespace).reverse.dropWhile Char.isWhitespace).reverse⟩

/-- Python `str.lower()` (`src/app/main.py:763`, `907`). -/
def pyLower (s : String) : String := ⟨s.toList.map Char.toLower⟩

/-- Python slicing `s[:n]` (`src/app/main.py:700`, `709`, `931`). -/
def pyTake (s : String) (n : ℕ) : String := ⟨s.toList.take n⟩

/-- Splitting helper for `pySplit`: cut at every whitespace character. -/
def splitWsAux : List Char → List Char → List (List Char)
  | [], acc => [acc.reverse]
  | c :: cs, acc =>
    if c.isWhitespace then acc.reverse :: splitWsAux cs []
    else splitWsAux cs (c :: acc)

/-- Python `str.split()` with no argument: split on whitespace runs,
dropping empty pieces (`src/app/main.py:917`, `930`). -/
def pySplit (s : String) : List String :=
  ((splitWsAux s.toList []).filter (fun w => w ≠ [])).map (fun w => ⟨w⟩)

/-- Python `sep.join(words)` (`src/app/main.py:931`). -/
def pyJoin (sep : String) : List String → String
  | [] => ""
  | [w] => w
  | w :: rest => w ++ sep ++ pyJoin sep rest

/-- Boolean prefix test on character lists. -/
def isPrefixB : List Char → List Char → Bool
  | [], _ => true
  | _ :: _, [] => false
  | p :: ps, h :: hs => p = h && isPrefixB ps hs

/-- Python truthiness-based `or` on optional strings: `x or d` yields `d`
for a missing (`None`) or empty string (`src/app/llm.py:486`). -/
def pyOrStr (x : Option String) (d : String) : String :=
  match x with
  | none => d
  | some v => if v = "" then d else v

/-- Python truthiness-based `or` on optional integers: `x or d` yields `d`
for a missing (`None`) or zero value (`src/app/llm.py:487`). -/
def pyOrInt (x : Option Int) (d : Int) : Int :=
  match x with
  | none => d
  | some v => if v = 0 then d else v

/-- Python truthiness-based `or` on optional lists: `x or d` yields `d`
for a missing (`None`) or empty list (`src/app/llm.py:489`). -/
def pyOrList (x : Option (List String)) (d : List String) : List String :=
  match x with
  | none => d
  | some v => if v = [] then d else v

/-- Python `f"{x}"` on an optional string renders `None` as `"None"`
(`src/app/main.py:709`). -/
def pyStrOpt : Option String → String
  | some s => s
  | none => "None"

/-- A string viewed as its Python truthiness: empty strings collapse to
`None` (`src/app/main.py:1133`). -/
def pyTruthyStr : Option String → Option String
  | some s => if s = "" then none else some s
  | none => none

/-- Python `round`: round half to even, as applied to the rational value
of the score means in `generate_final_evaluation` (`src/app/main.py:1140`). -/
def pyRound (q : ℚ) : Int :=
  let f := ⌊q⌋
  let r := q - f
  if r < 1/2 then f
  else if 1/2 < r then f + 1
  else if f % 2 = 0 then f else f + 1

/-- Boolean substring test on character lists; the empty pattern is
contained everywhere, as in Python. -/
def containsSub (pat : List Char) : List Char → Bool
  | [] => pat.isEmpty
  | h :: hs => isPrefixB pat (h :: hs) || containsSub pat hs

/-- Python `pat in s` substring containment (`src/app/main.py:775`). -/
def strIn (pat s : String) : Bool := containsSub pat.toList s.toList

/-- `ResumeContext` of `src/app/schemas.py:6`. -/
structure ResumeContext where
  name : Option String := none
  summary : Option String := none
  roles : List String := []
  skills : List String := []
  tools : List String := []
  projects : List String := []
  education : List String := []
  certifications : List String := []
  achievements : List String := []
  experience_years : Option ℚ := none
  claims : List String := []
deriving DecidableEq, Repr

/-- One entry of `SessionState.history`, a dict with keys `q`, `a`,
`score`, `type` (`src/app/main.py:801`). -/
structure TurnRecord where
  q : String
  a : String
  score : Int
  type : String
deriving DecidableEq, Repr

/-- `QaItem` of `src/app/schemas.py:42`. -/
structure QaItem where
  q : String
  a : String
deriving DecidableEq, Repr

/-- `EvaluationScores` of `src/app/schemas.py:50`. -/
structure EvaluationScores where
  communication : Int
  technical : Int
  problem_solving : Int
  culture_fit : Int
  recommendation : String
deriving DecidableEq, Repr

/-- `FinalEvaluation` of `src/app/schemas.py:61`. -/
structure FinalEvaluation where
  status : String
  resume_summary : Option String := none
  questions : List QaItem := []
  evaluation : EvaluationScores
deriving DecidableEq, Repr

/-- `LlmResult` of `src/app/schemas.py:71`. -/
structure LlmResult where
  next_question : String
  answer_score : Int
  rationale : String
  red_flags : List String := []
  end_interview : Bool := false
  final_summary : Option String := none
  final_json : Option FinalEvaluation := none
  question_type : Option String := none
deriving DecidableEq, Repr

/-- The `covered_dimensions` dict of `src/app/main.py:754`; `none` at the
`SessionState` level models the initial empty (falsy) dict. -/
structure CoveredDimensions where
  skills : Bool
  projects : Bool
  impact : Bool
  problem_solving : Bool
  communication : Bool
deriving DecidableEq, Repr

/-- All-`False` initialisation of the dimensions dict (`src/app/main.py:754`). -/
def initDims : CoveredDimensions :=
  { skills := false, projects := false, impact := false
    problem_solving := false, communication := false }

/-- `SessionState` of `src/app/schemas.py:87` (the fields the session loop
reads or writes). -/
structure SessionState where
  role : String
  level : String
  candidate_name : Option String := none
  resume_context : Option ResumeContext := none
  history : List TurnRecord := []
  question_count : ℕ := 0
  has_asked_intro : Bool := false
  has_asked_behavioral : Bool := false
  clarification_attempts : ℕ := 0
  struggle_streak : ℕ := 0
  current_topic : Option String := none
  followup_count : ℕ := 0
  clarification_depth : ℕ := 0
  last_clarification_topic : Option String := none
  covered_topics : List String := []
  covered_dimensions : Option CoveredDimensions := none
  max_questions_per_topic : ℕ := 4
  interview_start_time : Option ℚ := none
  consent_given : Bool := false
deriving DecidableEq, Repr

/-- `MIN_INTERVIEW_DURATION` (`src/app/main.py:837`), seconds. -/
def MIN_INTERVIEW_DURATION : ℚ := 15 * 60

/-- `MAX_INTERVIEW_DURATION` (`src/app/main.py:836`), seconds. -/
def MAX_INTERVIEW_DURATION : ℚ := 20 * 60

/-- `avg_score` over the history (`src/app/main.py:824`); every appended
record carries a `score` key, so `turn.get('score', 3)` is the record's
score. -/
def avgScore (hist : List TurnRecord) : ℚ :=
  (hist.map (fun t => (t.score : ℚ))).sum / hist.length

/-- The ending decision of `src/app/main.py:823-856`, evaluated after each
completed turn on the already-updated state. -/
def shouldEnd (hist : List TurnRecord) (questionCount : ℕ)
    (hasIntro hasBehavioral llmEnd : Bool) (elapsed : ℚ) : Bool :=
  let strong : Bool :=
    !hist.isEmpty && decide ((7 : ℚ)/2 ≤ avgScore hist)
      && decide (2 ≤ (hist.filter (fun t => 4 ≤ t.score)).length)
      && decide (4 ≤ hist.length)
  let weak : Bool :=
    !hist.isEmpty && decide (avgScore hist ≤ (5 : ℚ)/2)
      && decide (3 ≤ (hist.filter (fun t => t.score ≤ 2)).length)
      && decide (5 ≤ hist.length)
  let llmWantsToEnd := llmEnd && decide (1 ≤ questionCount)
  let canEndBasedOnLlm := llmWantsToEnd && decide (MIN_INTERVIEW_DURATION ≤ elapsed)
  canEndBasedOnLlm
    || (strong && hasIntro && hasBehavioral && decide (MIN_INTERVIEW_DURATION ≤ elapsed))
    || (weak && decide (MIN_INTERVIEW_DURATION ≤ elapsed))
    || decide (MAX_INTERVIEW_DURATION ≤ elapsed)

lemma shouldEnd_eq_false_of_lt_min (hist : List TurnRecord) (qc : ℕ)
    (i b e : Bool) (elapsed : ℚ) (h : elapsed < MIN_INTERVIEW_DURATION) :
    shouldEnd hist qc i b e elapsed = false := by
  have hmin : ¬ (MIN_INTERVIEW_DURATION ≤ elapsed) := not_le.mpr h
  have hlt : elapsed < MAX_INTERVIEW_DURATION := by
    refine lt_trans h ?_
    unfold MIN_INTERVIEW_DURATION MAX_INTERVIEW_DURATION
    norm_num
  have hmax : ¬ (MAX_INTERVIEW_DURATION ≤ elapsed) := not_le.mpr hlt
  simp only [shouldEnd, decide_eq_false hmin, decide_eq_false hmax,
    Bool.and_false, Bool.or_false, Bool.false_or, Bool.and_self]

lemma shouldEnd_eq_true_of_max_le (hist : List TurnRecord) (qc : ℕ)
    (i b e : Bool) (elapsed : ℚ) (h : MAX_INTERVIEW_DURATION ≤ elapsed) :
    shouldEnd hist qc i b e elapsed = true := by
  simp only [shouldEnd, decide_eq_true_eq, decide_eq_true h, Bool.or_true]

/-- **C1.** The ending decision evaluated after a completed turn never
returns "end" while elapsed time is below the 15-minute minimum,
regardless of the gateway's `end_interview` flag or of signal quality, and
always returns "end" once elapsed time is at or beyond the 20-minute
maximum. -/
theorem ending_policy_time_bounds (hist : List TurnRecord) (qc : ℕ)
    (i b e : Bool) (elapsed : ℚ) :
    (elapsed < MIN_INTERVIEW_DURATION → shouldEnd hist qc i b e elapsed = false) ∧
    (MAX_INTERVIEW_DURATION ≤ elapsed → shouldEnd hist qc i b e elapsed = true) :=
  ⟨shouldEnd_eq_false_of_lt_min hist qc i b e elapsed,
   shouldEnd_eq_true_of_max_le hist qc i b e elapsed⟩

/-- Concrete instance of `ending_policy_time_bounds`: an end-request with
strong signals at 14 minutes is refused, and at exactly 20 minutes the
policy ends unconditionally. -/
theorem ending_policy_time_bounds_witness :
    shouldEnd [⟨"q", "a", 5, "technical"⟩] 1 true true true 840 = false ∧
    shouldEnd [] 0 false false false 1200 = true :=
  ⟨(ending_policy_time_bounds [⟨"q", "a", 5, "technical"⟩] 1 true true true 840).1
      (by norm_num [MIN_INTERVIEW_DURATION]),
   (ending_policy_time_bounds [] 0 false false false 1200).2
      (by norm_num [MAX_INTERVIEW_DURATION])⟩

/-- The fields the orchestrator reads from the JSON object returned by the
reasoning model.  A field absent from the object (or set to JSON `null`)
is `none`; a `json.JSONDecodeError` on the raw content yields the empty
object, i.e. the all-`none` value (`src/app/llm.py:480-484`, including
`content or "{}"` for a missing content). -/
structure RawParsed where
  next_question : Option String := none
  answer_score : Option Int := none
  rationale : Option String := none
  red_flags : Option (List String) := none
  end_interview : Option Bool := none
  final_summary : Option String := none
  final_json : Option FinalEvaluation := none
  question_type : Option String := none
deriving DecidableEq, Repr

/-- The normalisation of the parsed model output into an `LlmResult`
(`src/app/llm.py:485-495`). -/
def normalizeLlmResponse (p : RawParsed) : LlmResult :=
  { next_question := pyOrStr p.next_question "Please share more about your recent work."
    answer_score := pyOrInt p.answer_score 3
    rationale := pyOrStr p.rationale "Not provided"
    red_flags := pyOrList p.red_flags []
    end_interview := match p.end_interview with
      | some b => b
      | none => false
    final_summary := p.final_summary
    final_json := p.final_json
    question_type := p.question_type }

/-- `call_llm` (`src/app/llm.py:299-495`): the chat-completion call at
line 467 has no surrounding `try`, so an API failure (timeout, network)
propagates to the caller as an exception; a returned response is parsed
and normalised. -/
def callLlm : Except String RawParsed → Except String LlmResult
  | .error e => .error e
  | .ok p => .ok (normalizeLlmResponse p)

/-- **C8, counterexample.**  The claim says `call_llm` always returns a
structurally valid decision even when the underlying model call fails; in
the source the chat-completion call is not wrapped in a `try`, so an API
timeout propagates as an exception and the caller receives no decision at
all (the orchestrator catches it one level up, `src/app/main.py:658`). -/
theorem api_failure_propagates :
    callLlm (Except.error "APITimeoutError") = Except.error "APITimeoutError" := rfl

/-- **C8, amended.**  Whenever the model call returns a response — even
malformed, partial, or non-JSON content, all of which normalise through
the all-`none` parsed object — `call_llm` produces a structurally valid
decision: `next_question` is never empty (missing or empty values get the
generic default), a missing score becomes 3, missing `red_flags` becomes
`[]`, and a missing `end_interview` becomes `false`.  Only an exception
from the underlying call itself escapes, and then no result is returned. -/
theorem normalized_decision_defaults (p : RawParsed) :
    (normalizeLlmResponse p).next_question ≠ "" ∧
    (p.next_question = none ∨ p.next_question = some "" →
      (normalizeLlmResponse p).next_question = "Please share more about your recent work.") ∧
    (p.answer_score = none → (normalizeLlmResponse p).answer_score = 3) ∧
    (p.red_flags = none → (normalizeLlmResponse p).red_flags = []) ∧
    (p.end_interview = none → (normalizeLlmResponse p).end_interview = false) ∧
    callLlm (Except.ok p) = Except.ok (normalizeLlmResponse p) := by
  refine ⟨?_, ?_, ?_, ?_, ?_, rfl⟩
  · simp only [normalizeLlmResponse, pyOrStr]
    match h : p.next_question with
    | none => simp
    | some v =>
      by_cases hv : v = "" <;> simp [hv]
  · rintro (h | h) <;> simp [normalizeLlmResponse, pyOrStr, h]
  · intro h; simp [normalizeLlmResponse, pyOrInt, h]
  · intro h; simp [normalizeLlmResponse, pyOrList, h]
  · intro h; simp [normalizeLlmResponse, h]

/-- Concrete instance of `normalized_decision_defaults` at the all-`none`
parsed object, i.e. at unparseable model output. -/
theorem normalized_decision_defaults_witness :
    (normalizeLlmResponse {}).next_question ≠ "" ∧
    (normalizeLlmResponse {}).next_question = "Please share more about your recent work." ∧
    (normalizeLlmResponse {}).answer_score = 3 ∧
    (normalizeLlmResponse {}).red_flags = [] ∧
    (normalizeLlmResponse {}).end_interview = false :=
  ⟨(normalized_decision_defaults {}).1,
   (normalized_decision_defaults {}).2.1 (Or.inl rfl),
   (normalized_decision_defaults {}).2.2.1 rfl,
   (normalized_decision_defaults {}).2.2.2.1 rfl,
   (normalized_decision_defaults {}).2.2.2.2.1 rfl⟩

/-- Classification of the consent answer by `interpret_consent`
(`src/app/llm.py:234-273`); the call never raises (its own errors default
to `unclear`). -/
inductive ConsentResult
  | granted
  | denied
  | unclear
deriving DecidableEq, Repr

/-- One inbound `answer` message together with the outcomes of the
external calls made while handling it: the transcript produced by the
speech-to-text gateway (`None` collapses to the empty string, both are
falsy), the consent classification (read only on the consent turn), the
outcome of `call_llm`, and the elapsed wall-clock seconds measured at
`src/app/main.py:839`. -/
structure TurnInput where
  transcript : String
  consent : ConsentResult
  llm : Except String LlmResult
  elapsed : ℚ
deriving Repr

/-- Outbound control messages of the session protocol
(`src/app/main.py`).  Binary audio frames, `ready_to_listen`, `tts_error`
and the retry logic around sending are concurrency/transport behaviour and
are not part of the state machine; a `summary` carries the gateway's
`final_summary` when present and `none` when the human-readable text is
generated locally (`generate_human_summary`, text not modelled). -/
inductive OutMsg
  | resume_summary (text : String)
  | question_text (text : String)
  | turn_result (transcript : String) (score : Int) (rationale : String)
      (red_flags : List String) (end_interview : Bool)
  | summary (final_summary : Option String)
  | json_report (data : FinalEvaluation)
  | done (message : String)
  | error (message : String)
deriving DecidableEq, Repr

/-- The session-loop state: the `SessionState` record plus the
`current_question` local of the `interview` handler and whether the
socket has been closed by the server. -/
structure LoopState where
  sess : SessionState
  current_question : String
  closed : Bool
deriving DecidableEq, Repr

/-- The defensive guard for empty or very short transcripts
(`src/app/main.py:456-468`): at maximal clarification depth the
clarification tracking is reset.  (The `force_new_topic = True` local set
there is overwritten at line 632 before its only use, so it has no
effect.) -/
def shortAnswerGuard (s : SessionState) (transcript : String) : SessionState :=
  if (transcript = "" || pyStrip transcript = "" || decide ((pyStrip transcript).length < 3))
      && decide (2 ≤ s.clarification_depth) then
    { s with clarification_depth := 0, last_clarification_topic := none }
  else s

/-- The canceled report emitted when consent is denied
(`src/app/main.py:492-503`). -/
def canceledEvaluation (s : SessionState) (q a : String) : FinalEvaluation :=
  { status := "canceled"
    resume_summary := s.resume_context.bind (fun rc => rc.summary)
    questions := [⟨q, a⟩]
    evaluation :=
      { communication := 0, technical := 0, problem_solving := 0, culture_fit := 0
        recommendation := "reject" } }

/-- The fixed consent clarification prompt (`src/app/main.py:512`). -/
def consentClarification : String :=
  "I didn't quite catch that. Are you ready to begin the interview? Please say 'yes' to start or 'no' to cancel."

/-- The fixed self-introduction question (`src/app/main.py:579`). -/
def introQuestion : String :=
  "Please introduce yourself in 60 seconds focusing on your most relevant experience for this role."

/-- The safe fallback turn decision substituted when `call_llm` raises
(`src/app/main.py:661-668`). -/
def fallbackLlmResult (e : String) : LlmResult :=
  { next_question := "Can you tell me more about that?"
    answer_score := 3
    rationale := "Error occurred during processing: " ++ e
    red_flags := []
    end_interview := false
    question_type := some "technical" }

/-- The `force_new_topic` flag passed to the reasoning gateway, computed
from the pre-turn state (`src/app/main.py:421` and `632`). -/
def forceNewTopicFlag (s : SessionState) : Bool := decide (4 ≤ s.followup_count)

/-- The stable clarification topic key
`f"{llm_result.question_type}:{current_question[:30]}"`
(`src/app/main.py:709`). -/
def topicKey (qt : Option String) (currentQ : String) : String :=
  pyStrOpt qt ++ ":" ++ pyTake currentQ 30

/-- Question-type and follow-up/clarification tracking applied after the
reasoning call (`src/app/main.py:681-739`). -/
def trackQuestionType (s : SessionState) (currentQ transcript : String)
    (r : LlmResult) : SessionState :=
  if r.question_type = some "intro" then
    { s with has_asked_intro := true, current_topic := none, followup_count := 0
             clarification_depth := 0, last_clarification_topic := none }
  else if r.question_type = some "behavioral" then
    { s with has_asked_behavioral := true, current_topic := none, followup_count := 0
             clarification_depth := 0, last_clarification_topic := none }
  else if r.question_type = some "followup" then
    let s1 :=
      match s.current_topic with
      | some _ => { s with followup_count := s.followup_count + 1 }
      | none => { s with current_topic := some (pyTake currentQ 50), followup_count := 1 }
    if decide (r.answer_score ≤ 2)
        || (transcript ≠ "" && decide ((pyStrip transcript).length < 10)) then
      let key := topicKey r.question_type currentQ
      let s2 :=
        if s1.last_clarification_topic = some key then
          { s1 with clarification_depth := s1.clarification_depth + 1 }
        else
          { s1 with clarification_depth := 1, last_clarification_topic := some key }
      if decide (2 ≤ s2.clarification_depth) then
        { s2 with current_topic := none, clarification_depth := 0
                  last_clarification_topic := none, followup_count := 0 }
      else s2
    else
      { s1 with clarification_depth := 0, last_clarification_topic := none }
  else
    { s with current_topic := none, followup_count := 0
             clarification_depth := 0, last_clarification_topic := none }

/-- The follow-up cap (`src/app/main.py:741-748`): when four consecutive
follow-ups have accumulated, topic and counters are reset.  (The comment
there says the reset "will force new topic in next LLM call", but the next
call recomputes `forceNewTopicFlag` from the now-zero counter.) -/
def followupCapReset (s : SessionState) : SessionState :=
  if decide (4 ≤ s.followup_count) then
    { s with current_topic := none, followup_count := 0
             clarification_depth := 0, last_clarification_topic := none }
  else s

/-- Topic and dimension coverage tracking (`src/app/main.py:751-792`);
matching is case-insensitive substring search against the *next* question
and the transcript. -/
def trackCoverage (s : SessionState) (transcript : String) (r : LlmResult) :
    SessionState :=
  match s.resume_context with
  | none => s
  | some rc =>
    let dims := match s.covered_dimensions with
      | none => initDims
      | some d => d
    let questionLower := pyLower r.next_question
    let transcriptLower := pyLower transcript
    let allResumeTopics := rc.skills ++ rc.projects ++ rc.roles ++ rc.tools
    let covered := allResumeTopics.foldl (fun acc topic =>
      if topic ≠ ""
          && (strIn (pyLower topic) questionLower || strIn (pyLower topic) transcriptLower) then
        if topic ∉ acc then acc ++ [topic] else acc
      else acc) s.covered_topics
    let dims1 :=
      if r.question_type = some "technical" then { dims with skills := true }
      else if r.question_type = some "behavioral" then { dims with problem_solving := true }
      else dims
    let dims2 := { dims1 with communication := true }
    let projHit := rc.projects.any (fun p =>
      p ≠ "" && (strIn (pyLower p) questionLower || strIn (pyLower p) transcriptLower))
    let dims3 := if projHit then { dims2 with projects := true, impact := true } else dims2
    { s with covered_topics := covered, covered_dimensions := some dims3 }

/-- The struggle-streak heuristic (`src/app/main.py:794-798`). -/
def updateStruggle (s : SessionState) (r : LlmResult) : SessionState :=
  if decide (r.answer_score ≤ 2) then { s with struggle_streak := s.struggle_streak + 1 }
  else { s with struggle_streak := 0 }

/-- Appending the completed turn (`src/app/main.py:800-806`); the record's
`type` is `llm_result.question_type or "technical"`. -/
def appendTurn (s : SessionState) (currentQ transcript : String) (r : LlmResult) :
    SessionState :=
  { s with question_count := s.question_count + 1
           history := s.history ++
             [⟨currentQ, transcript, r.answer_score, pyOrStr r.question_type "technical"⟩] }

/-- The full state mutation of one completed turn, in source order
(`src/app/main.py:681-806`). -/
def updateTurnState (s : SessionState) (currentQ transcript : String) (r : LlmResult) :
    SessionState :=
  appendTurn
    (updateStruggle
      (trackCoverage (followupCapReset (trackQuestionType s currentQ transcript r))
        transcript r)
      r)
    currentQ transcript r

/-- A subset mean with fallback, as computed for each dimension in
`generate_final_evaluation` (`src/app/main.py:1097-1118`). -/
def subsetMean (sub : List TurnRecord) (fallback : ℚ) : ℚ :=
  if sub.isEmpty then fallback
  else (sub.map (fun t => (t.score : ℚ))).sum / sub.length

/-- `generate_final_evaluation` (`src/app/main.py:1069-1146`). -/
def generateFinalEvaluation (state : SessionState) (lastLlmResult : LlmResult) :
    FinalEvaluation :=
  let questions := state.history.map (fun t => QaItem.mk t.q t.a)
  let scoresQuad : ℚ × ℚ × ℚ × ℚ :=
    if state.history.isEmpty then (3, 3, 3, 3)
    else
      let scores := state.history.map (fun t => (t.score : ℚ))
      let avg := scores.sum / scores.length
      let communicationScore : ℚ := (lastLlmResult.answer_score : ℚ)
      let technicalTurns := state.history.filter
        (fun t => t.type = "technical" || t.type = "followup")
      let technicalScore := subsetMean technicalTurns avg
      let problemTurns := state.history.filter
        (fun t => t.type = "behavioral" || t.type = "followup")
      let problemScore := subsetMean problemTurns avg
      let behavioralTurns := state.history.filter (fun t => t.type = "behavioral")
      let cultureScore := subsetMean behavioralTurns avg
      (communicationScore, technicalScore, problemScore, cultureScore)
  let communicationScore := scoresQuad.1
  let technicalScore := scoresQuad.2.1
  let problemScore := scoresQuad.2.2.1
  let cultureScore := scoresQuad.2.2.2
  let overallAvg := (communicationScore + technicalScore + problemScore + cultureScore) / 4
  let recommendation :=
    if 4 ≤ overallAvg then "move_forward"
    else if 3 ≤ overallAvg then "hold"
    else "reject"
  { status := "completed"
    resume_summary := pyTruthyStr (state.resume_context.bind (fun rc => rc.summary))
    questions := questions
    evaluation :=
      { communication := pyRound communicationScore
        technical := pyRound technicalScore
        problem_solving := pyRound problemScore
        culture_fit := pyRound cultureScore
        recommendation := recommendation } }

/-- The fallback follow-up generated when a duplicate question is detected
(`src/app/main.py:926-933`), built from the tail of the candidate's most
recent answer. -/
def fallbackFollowup (hist : List TurnRecord) (transcript : String) : String :=
  let latestAnswer := match hist.getLast? with
    | some t => t.a
    | none => transcript
  let answerWords := (pySplit latestAnswer).take 20
  let keyPhrase :=
    if 5 ≤ answerWords.length then
      pyJoin " " (answerWords.drop (answerWords.length - 5))
    else pyTake latestAnswer 50
  "Can you tell me more about " ++ keyPhrase ++
    "? Specifically, what challenges did you face and how did you overcome them?"

/-- The word set of an (already lowered and stripped) question,
`set(q.split())` (`src/app/main.py:917-918`). -/
def wordSet (s : String) : List String := (pySplit s).dedup

/-- One comparison of the repetition guard (`src/app/main.py:913-923`):
exact match, or word overlap strictly above 0.8, where overlap is the
intersection cardinality over the larger set cardinality.  Both set
cardinalities are guarded positive, so `overlap > 0.8` is rendered by the
exact cross-multiplied inequality `5 * |inter| > 4 * max |cur| |prev|`
(the double-precision comparison in the source agrees with the rational
one at these magnitudes, including at exactly 0.8, which is represented
by the same double on both sides). -/
def isDuplicateOf (curLower prevLower : String) : Bool :=
  curLower = prevLower ||
    (let currentWords := wordSet curLower
     let prevWords := wordSet prevLower
     decide (0 < currentWords.length) && decide (0 < prevWords.length) &&
       decide (4 * max currentWords.length prevWords.length <
         5 * ((currentWords.filter (fun w => w ∈ prevWords)).length)))

/-- The repetition check against every prior question
(`src/app/main.py:906-923`). -/
def isRepeat (hist : List TurnRecord) (cur : String) : Bool :=
  (hist.map (fun t => pyStrip (pyLower t.q))).any
    (fun prevQ => isDuplicateOf (pyStrip (pyLower cur)) prevQ)

/-- Validation and repetition guard for the next question
(`src/app/main.py:893-933`): empty → generic fallback, shorter than 10
characters → generic fallback, duplicate of a prior question → follow-up
built from the latest answer.  (`not llm_result` at line 894 is always
false: the result object is never falsy.) -/
def chooseNextQuestion (hist : List TurnRecord) (transcript : String)
    (candidate : String) : String :=
  let q1 := if candidate = "" || pyStrip candidate = "" then
      "Can you tell me more about your experience?"
    else candidate
  let q2 := if decide ((pyStrip q1).length < 10) then
      "Can you tell me more about your experience with this technology?"
    else q1
  if !hist.isEmpty && isRepeat hist q2 then fallbackFollowup hist transcript
  else q2

/-- The consent gate (`src/app/main.py:480-629`), entered on the first
answer while consent has not been given: denial cancels the session with
the zeroed report, an unclear reply re-asks the consent prompt, a grant
marks consent and asks the fixed self-introduction question (no reasoning
call, nothing appended to history). -/
def consentStep (ls : LoopState) (s0 : SessionState) (inp : TurnInput) :
    LoopState × List OutMsg :=
  match inp.consent with
  | .denied =>
    let ev := canceledEvaluation s0 ls.current_question inp.transcript
    ({ ls with sess := s0, closed := true },
     [OutMsg.json_report ev, OutMsg.done "Interview canceled. Thank you."])
  | .unclear =>
    ({ ls with sess := s0, current_question := consentClarification },
     [OutMsg.question_text consentClarification])
  | .granted =>
    ({ ls with sess := { s0 with consent_given := true }
               current_question := introQuestion },
     [OutMsg.turn_result inp.transcript 0 "Consent given" [] false,
      OutMsg.question_text introQuestion])

/-- A regular turn (`src/app/main.py:631-1060`): the reasoning call with
its fallback on failure, the state update, the `turn_result` message, the
ending decision, and either the terminal report or the next question. -/
def mainTurnStep (ls : LoopState) (s0 : SessionState) (inp : TurnInput) :
    LoopState × List OutMsg :=
  let r := match inp.llm with
    | .ok res => res
    | .error e => fallbackLlmResult e
  let s1 := updateTurnState s0 ls.current_question inp.transcript r
  let turnMsg := OutMsg.turn_result inp.transcript r.answer_score r.rationale
    r.red_flags r.end_interview
  if shouldEnd s1.history s1.question_count s1.has_asked_intro
      s1.has_asked_behavioral r.end_interview inp.elapsed then
    let finalEval := match r.final_json with
      | some e => e
      | none => generateFinalEvaluation s1 r
    ({ ls with sess := s1, closed := true },
     [turnMsg, OutMsg.summary (pyTruthyStr r.final_summary),
      OutMsg.json_report finalEval, OutMsg.done "Interview complete. Thank you!"])
  else
    let nq := chooseNextQuestion s1.history inp.transcript r.next_question
    ({ ls with sess := s1, current_question := nq },
     [turnMsg, OutMsg.question_text nq])

/-- One iteration of the main turn loop for an inbound `answer` message
(`src/app/main.py:376-1060`): the defensive short-transcript guard, then
either the consent gate or a regular turn. -/
def stepAnswer (ls : LoopState) (inp : TurnInput) : LoopState × List OutMsg :=
  if ls.closed then (ls, []) else
  let s0 := shortAnswerGuard ls.sess inp.transcript
  if s0.history.isEmpty && !s0.consent_given then consentStep ls s0 inp
  else mainTurnStep ls s0 inp

/-- The loop state right after a valid `start` message and the greeting
(`src/app/main.py:303-327`): a fresh `SessionState` whose mutable fields
carry the schema defaults, with the greeting as the pending question. -/
def initLoop (role level : String) (candidateName : Option String)
    (rc : ResumeContext) (greeting : String) (startTime : ℚ) : LoopState :=
  { sess :=
      { role := role, level := level, candidate_name := candidateName
        resume_context := some rc, history := []
        interview_start_time := some startTime }
    current_question := greeting
    closed := false }

/-- Folding the turn loop over a sequence of inbound answers. -/
def runSession (ls : LoopState) : List TurnInput → LoopState
  | [] => ls
  | inp :: rest => runSession (stepAnswer ls inp).1 rest

lemma shortAnswerGuard_fields (s : SessionState) (t : String) :
    (shortAnswerGuard s t).history = s.history ∧
    (shortAnswerGuard s t).question_count = s.question_count ∧
    (shortAnswerGuard s t).consent_given = s.consent_given ∧
    (shortAnswerGuard s t).clarification_depth ≤ s.clarification_depth := by
  unfold shortAnswerGuard
  split <;> simp

lemma trackQuestionType_fields (s : SessionState) (q t : String) (r : LlmResult) :
    (trackQuestionType s q t r).history = s.history ∧
    (trackQuestionType s q t r).question_count = s.question_count ∧
    (trackQuestionType s q t r).consent_given = s.consent_given := by
  cases htopic : s.current_topic <;>
    simp only [trackQuestionType, htopic] <;>
    split_ifs <;> simp

/-- After the question-type tracking the stored clarification depth is at
most 1, unconditionally: any depth that reaches 2 inside the branch is
reset to 0 on the spot. -/
lemma trackQuestionType_clarification_depth_le_one (s : SessionState) (q t : String)
    (r : LlmResult) :
    (trackQuestionType s q t r).clarification_depth ≤ 1 := by
  cases htopic : s.current_topic <;>
    simp only [trackQuestionType, htopic] <;>
    split_ifs <;> simp_all

lemma followupCapReset_fields (s : SessionState) :
    (followupCapReset s).history = s.history ∧
    (followupCapReset s).question_count = s.question_count ∧
    (followupCapReset s).consent_given = s.consent_given ∧
    (followupCapReset s).clarification_depth ≤ s.clarification_depth := by
  unfold followupCapReset
  split <;> simp

lemma trackCoverage_fields (s : SessionState) (t : String) (r : LlmResult) :
    (trackCoverage s t r).history = s.history ∧
    (trackCoverage s t r).question_count = s.question_count ∧
    (trackCoverage s t r).consent_given = s.consent_given ∧
    (trackCoverage s t r).clarification_depth = s.clarification_depth := by
  unfold trackCoverage
  repeat' split <;> simp

lemma updateStruggle_fields (s : SessionState) (r : LlmResult) :
    (updateStruggle s r).history = s.history ∧
    (updateStruggle s r).question_count = s.question_count ∧
    (updateStruggle s r).consent_given = s.consent_given ∧
    (updateStruggle s r).clarification_depth = s.clarification_depth := by
  unfold updateStruggle
  split <;> simp

lemma appendTurn_fields (s : SessionState) (q t : String) (r : LlmResult) :
    (appendTurn s q t r).history =
      s.history ++ [⟨q, t, r.answer_score, pyOrStr r.question_type "technical"⟩] ∧
    (appendTurn s q t r).question_count = s.question_count + 1 ∧
    (appendTurn s q t r).consent_given = s.consent_given ∧
    (appendTurn s q t r).clarification_depth = s.clarification_depth := by
  unfold appendTurn
  simp

/-- The state mutation of a completed turn appends exactly one record,
carrying the gateway's (normalised) score, and bumps the counter by one. -/
lemma updateTurnState_history (s : SessionState) (q t : String) (r : LlmResult) :
    (updateTurnState s q t r).history =
      s.history ++ [⟨q, t, r.answer_score, pyOrStr r.question_type "technical"⟩] ∧
    (updateTurnState s q t r).question_count = s.question_count + 1 ∧
    (updateTurnState s q t r).consent_given = s.consent_given := by
  unfold updateTurnState
  refine ⟨?_, ?_, ?_⟩
  · rw [(appendTurn_fields _ _ _ _).1,
      (updateStruggle_fields _ _).1, (trackCoverage_fields _ _ _).1,
      (followupCapReset_fields _).1, (trackQuestionType_fields _ _ _ _).1]
  · rw [(appendTurn_fields _ _ _ _).2.1,
      (updateStruggle_fields _ _).2.1, (trackCoverage_fields _ _ _).2.1,
      (followupCapReset_fields _).2.1, (trackQuestionType_fields _ _ _ _).2.1]
  · rw [(appendTurn_fields _ _ _ _).2.2.1,
      (updateStruggle_fields _ _).2.2.1, (trackCoverage_fields _ _ _).2.2.1,
      (followupCapReset_fields _).2.2.1, (trackQuestionType_fields _ _ _ _).2.2]

/-- The history/counter invariant of the session loop. -/
def SessionInv (ls : LoopState) : Prop :=
  ls.sess.question_count = ls.sess.history.length ∧
  (ls.sess.consent_given = false →
    ls.sess.question_count = 0 ∧ ls.sess.history = [])

lemma consentStep_sess (ls : LoopState) (s0 : SessionState) (inp : TurnInput) :
    (consentStep ls s0 inp).1.sess = s0 ∨
    (consentStep ls s0 inp).1.sess = { s0 with consent_given := true } := by
  cases h : inp.consent <;> simp [consentStep, h]

lemma mainTurnStep_sess (ls : LoopState) (s0 : SessionState) (inp : TurnInput) :
    (mainTurnStep ls s0 inp).1.sess =
      updateTurnState s0 ls.current_question inp.transcript
        (match inp.llm with
         | .ok res => res
         | .error e => fallbackLlmResult e) := by
  unfold mainTurnStep
  split <;> (dsimp only; split <;> rfl)

lemma stepAnswer_inv (ls : LoopState) (inp : TurnInput) (h : SessionInv ls) :
    SessionInv (stepAnswer ls inp).1 := by
  obtain ⟨h1, h2⟩ := h
  obtain ⟨g1, g2, g3, -⟩ := shortAnswerGuard_fields ls.sess inp.transcript
  unfold stepAnswer
  split
  · exact ⟨h1, h2⟩
  dsimp only
  split
  next hcond =>
    rcases consentStep_sess ls (shortAnswerGuard ls.sess inp.transcript) inp with hs | hs <;>
      refine ⟨?_, fun hng => ?_⟩ <;>
      rw [hs] at * <;>
      simp_all
  next hcond =>
    obtain ⟨u1, u2, u3⟩ := updateTurnState_history
      (shortAnswerGuard ls.sess inp.transcript) ls.current_question inp.transcript
      (match inp.llm with
       | .ok res => res
       | .error e => fallbackLlmResult e)
    have hcons : ls.sess.consent_given = true := by
      by_contra hfalse
      have hcf : ls.sess.consent_given = false := by
        cases hcg : ls.sess.consent_given
        · rfl
        · exact absurd hcg hfalse
      obtain ⟨-, hemp⟩ := h2 hcf
      exact hcond (by simp [g1, g3, hemp, hcf])
    refine ⟨?_, fun hng => ?_⟩
    · rw [mainTurnStep_sess, u2, u1, g2, g1, h1]
      simp
    · rw [mainTurnStep_sess, u3, g3, hcons] at hng
      exact absurd hng (by simp)

lemma runSession_inv (ls : LoopState) (inputs : List TurnInput) (h : SessionInv ls) :
    SessionInv (runSession ls inputs) := by
  induction inputs generalizing ls with
  | nil => exact h
  | cons inp rest ih => exact ih _ (stepAnswer_inv ls inp h)

/-- **C3.**  In every reachable loop state, `question_count` equals
`len(history)`; while consent has not been given both are 0, and in
particular the consent exchange itself is never appended to history. -/
theorem question_count_matches_history (role level : String)
    (candidateName : Option String) (rc : ResumeContext) (greeting : String)
    (startTime : ℚ) (inputs : List TurnInput) :
    (runSession (initLoop role level candidateName rc greeting startTime) inputs).sess.question_count =
      (runSession (initLoop role level candidateName rc greeting startTime) inputs).sess.history.length ∧
    ((runSession (initLoop role level candidateName rc greeting startTime) inputs).sess.consent_given = false →
      (runSession (initLoop role level candidateName rc greeting startTime) inputs).sess.question_count = 0 ∧
      (runSession (initLoop role level candidateName rc greeting startTime) inputs).sess.history = []) :=
  runSession_inv _ inputs ⟨rfl, fun _ => ⟨rfl, rfl⟩⟩

/-- Concrete instance of `question_count_matches_history`: a session whose
only answer is an unclear consent reply still has an empty history and a
zero question count. -/
theorem question_count_matches_history_witness :
    (runSession (initLoop "Software Engineer" "mid" (some "Ada") {} "Hi, shall we start?" 0)
        [⟨"hm", ConsentResult.unclear, Except.error "unused", 1⟩]).sess.question_count = 0 ∧
    (runSession (initLoop "Software Engineer" "mid" (some "Ada") {} "Hi, shall we start?" 0)
        [⟨"hm", ConsentResult.unclear, Except.error "unused", 1⟩]).sess.history = [] :=
  (question_count_matches_history "Software Engineer" "mid" (some "Ada") {}
    "Hi, shall we start?" 0 [⟨"hm", ConsentResult.unclear, Except.error "unused", 1⟩]).2
    (by decide)

lemma stepAnswer_consent (ls : LoopState) (inp : TurnInput)
    (hclosed : ls.closed = false)
    (hh : ls.sess.history = []) (hg : ls.sess.consent_given = false) :
    stepAnswer ls inp = consentStep ls (shortAnswerGuard ls.sess inp.transcript) inp := by
  unfold stepAnswer
  rw [if_neg (by simp [hclosed])]
  dsimp only
  rw [if_pos]
  simp [(shortAnswerGuard_fields ls.sess inp.transcript).1,
    (shortAnswerGuard_fields ls.sess inp.transcript).2.2.1, hh, hg]

lemma stepAnswer_main (ls : LoopState) (inp : TurnInput)
    (hclosed : ls.closed = false)
    (hcons : ls.sess.consent_given = true) :
    stepAnswer ls inp = mainTurnStep ls (shortAnswerGuard ls.sess inp.transcript) inp := by
  unfold stepAnswer
  rw [if_neg (by simp [hclosed])]
  dsimp only
  rw [if_neg]
  simp [(shortAnswerGuard_fields ls.sess inp.transcript).2.2.1, hcons]

lemma mainTurnStep_continue (ls : LoopState) (s0 : SessionState) (inp : TurnInput)
    (r : LlmResult)
    (hr : (match inp.llm with
           | Except.ok res => res
           | Except.error e => fallbackLlmResult e) = r)
    (hend : shouldEnd (updateTurnState s0 ls.current_question inp.transcript r).history
        (updateTurnState s0 ls.current_question inp.transcript r).question_count
        (updateTurnState s0 ls.current_question inp.transcript r).has_asked_intro
        (updateTurnState s0 ls.current_question inp.transcript r).has_asked_behavioral
        r.end_interview inp.elapsed = false) :
    mainTurnStep ls s0 inp =
      ({ ls with sess := updateTurnState s0 ls.current_question inp.transcript r
                 current_question := chooseNextQuestion
                   (updateTurnState s0 ls.current_question inp.transcript r).history
                   inp.transcript r.next_question },
       [OutMsg.turn_result inp.transcript r.answer_score r.rationale r.red_flags
          r.end_interview,
        OutMsg.question_text (chooseNextQuestion
          (updateTurnState s0 ls.current_question inp.transcript r).history
          inp.transcript r.next_question)]) := by
  unfold mainTurnStep
  rw [hr]
  dsimp only
  rw [if_neg (by simp [hend])]

/-- **C2, amended.**  If the reasoning-gateway call raises or times out
mid-session, the orchestrator substitutes the safe fallback turn decision
(the generic question "Can you tell me more about that?", neutral score 3,
the error noted in the rationale) and — whenever the ending policy does
not independently end the interview, in particular always while elapsed
time is below the 15-minute minimum — still emits a `question_text`
message for that turn and does not close the channel.  (At or beyond the
20-minute ceiling the session closes gracefully even on a gateway
failure; see the counterexample.) -/
theorem llm_failure_fallback_turn (ls : LoopState) (inp : TurnInput) (e : String)
    (hclosed : ls.closed = false)
    (hcons : ls.sess.consent_given = true)
    (herr : inp.llm = Except.error e)
    (htime : inp.elapsed < MIN_INTERVIEW_DURATION) :
    (stepAnswer ls inp).1.closed = false ∧
    (∃ q, (stepAnswer ls inp).2 =
      [OutMsg.turn_result inp.transcript 3
        ("Error occurred during processing: " ++ e) [] false,
       OutMsg.question_text q]) ∧
    (stepAnswer ls inp).1.sess.history.getLast?.map (fun t => t.score) = some 3 := by
  have hstep := stepAnswer_main ls inp hclosed hcons
  have hr : (match inp.llm with
             | Except.ok res => res
             | Except.error e => fallbackLlmResult e) = fallbackLlmResult e := by
    rw [herr]
  have hcont := mainTurnStep_continue ls (shortAnswerGuard ls.sess inp.transcript) inp
    (fallbackLlmResult e) hr
    (shouldEnd_eq_false_of_lt_min _ _ _ _ _ _ htime)
  rw [hstep, hcont]
  refine ⟨hclosed, ⟨_, rfl⟩, ?_⟩
  rw [(updateTurnState_history _ _ _ _).1]
  simp [fallbackLlmResult, pyOrStr]

/-- A consented mid-session loop state used by concrete instances. -/
def demoState : LoopState :=
  { sess := { role := "Software Engineer", level := "mid"
              consent_given := true, interview_start_time := some 0 }
    current_question := "Tell me about your current project."
    closed := false }

/-- A turn whose reasoning call raised, arriving at one minute elapsed. -/
def demoErrInput : TurnInput :=
  ⟨"I worked on a compiler", ConsentResult.granted, Except.error "timeout", 60⟩

/-- Concrete instance of `llm_failure_fallback_turn`. -/
theorem llm_failure_fallback_turn_witness :
    (stepAnswer demoState demoErrInput).1.closed = false ∧
    (∃ q, (stepAnswer demoState demoErrInput).2 =
      [OutMsg.turn_result demoErrInput.transcript 3
        ("Error occurred during processing: " ++ "timeout") [] false,
       OutMsg.question_text q]) ∧
    (stepAnswer demoState demoErrInput).1.sess.history.getLast?.map
      (fun t => t.score) = some 3 :=
  llm_failure_fallback_turn demoState demoErrInput "timeout" rfl rfl rfl
    (by norm_num [MIN_INTERVIEW_DURATION, demoErrInput])

/-- The same failed reasoning call arriving at the 20-minute hard ceiling. -/
def demoCeilingInput : TurnInput :=
  ⟨"I worked on a compiler", ConsentResult.granted, Except.error "timeout", 1200⟩

lemma mainTurnStep_ending (ls : LoopState) (s0 : SessionState) (inp : TurnInput)
    (r : LlmResult)
    (hr : (match inp.llm with
           | Except.ok res => res
           | Except.error e => fallbackLlmResult e) = r)
    (hend : shouldEnd (updateTurnState s0 ls.current_question inp.transcript r).history
        (updateTurnState s0 ls.current_question inp.transcript r).question_count
        (updateTurnState s0 ls.current_question inp.transcript r).has_asked_intro
        (updateTurnState s0 ls.current_question inp.transcript r).has_asked_behavioral
        r.end_interview inp.elapsed = true) :
    mainTurnStep ls s0 inp =
      ({ ls with sess := updateTurnState s0 ls.current_question inp.transcript r
                 closed := true },
       [OutMsg.turn_result inp.transcript r.answer_score r.rationale r.red_flags
          r.end_interview,
        OutMsg.summary (pyTruthyStr r.final_summary),
        OutMsg.json_report (match r.final_json with
          | some e => e
          | none => generateFinalEvaluation
              (updateTurnState s0 ls.current_question inp.transcript r) r),
        OutMsg.done "Interview complete. Thank you!"]) := by
  unfold mainTurnStep
  rw [hr]
  dsimp only
  rw [if_pos hend]

/-- **C2, counterexample.**  The claim says a reasoning-gateway failure
never closes the channel and always yields a `question_text` for the turn;
but when the fallback turn completes at or beyond the 20-minute ceiling,
the ending policy fires and the session emits the terminal report and
closes without any `question_text`. -/
theorem llm_failure_at_ceiling_closes :
    (stepAnswer demoState demoCeilingInput).1.closed = true ∧
    ((stepAnswer demoState demoCeilingInput).2.filter (fun m =>
      match m with
      | OutMsg.question_text _ => true
      | _ => false)) = [] := by
  rw [stepAnswer_main demoState demoCeilingInput rfl rfl,
    mainTurnStep_ending demoState _ demoCeilingInput (fallbackLlmResult "timeout") rfl
      (shouldEnd_eq_true_of_max_le _ _ _ _ _ _
        (by norm_num [MAX_INTERVIEW_DURATION, demoCeilingInput]))]
  exact ⟨rfl, rfl⟩

/-- **C10.**  When the consent answer is classified as denied, the session
emits a canceled report whose four evaluation dimensions are all 0 with
recommendation "reject", followed by a `done` message, closes the channel,
and appends nothing to history. -/
theorem consent_denied_cancels (ls : LoopState) (inp : TurnInput)
    (hclosed : ls.closed = false)
    (hh : ls.sess.history = []) (hg : ls.sess.consent_given = false)
    (hd : inp.consent = ConsentResult.denied) :
    (∃ ev : FinalEvaluation,
      (stepAnswer ls inp).2 =
        [OutMsg.json_report ev, OutMsg.done "Interview canceled. Thank you."] ∧
      ev.status = "canceled" ∧
      ev.evaluation =
        { communication := 0, technical := 0, problem_solving := 0
          culture_fit := 0, recommendation := "reject" } ∧
      ev.questions = [⟨ls.current_question, inp.transcript⟩]) ∧
    (stepAnswer ls inp).1.closed = true ∧
    (stepAnswer ls inp).1.sess.history = [] := by
  rw [stepAnswer_consent ls inp hclosed hh hg]
  unfold consentStep
  rw [hd]
  refine ⟨⟨canceledEvaluation (shortAnswerGuard ls.sess inp.transcript)
    ls.current_question inp.transcript, rfl, rfl, rfl, rfl⟩, rfl, ?_⟩
  exact (shortAnswerGuard_fields ls.sess inp.transcript).1.trans hh

/-- Concrete instance of `consent_denied_cancels`: a fresh session whose
candidate answers the consent prompt with "no thanks". -/
theorem consent_denied_cancels_witness :
    (∃ ev : FinalEvaluation,
      (stepAnswer (initLoop "Software Engineer" "mid" (some "Ada") {} "Hi, shall we start?" 0)
          ⟨"no thanks", ConsentResult.denied, Except.error "unused", 5⟩).2 =
        [OutMsg.json_report ev, OutMsg.done "Interview canceled. Thank you."] ∧
      ev.status = "canceled" ∧
      ev.evaluation =
        { communication := 0, technical := 0, problem_solving := 0
          culture_fit := 0, recommendation := "reject" } ∧
      ev.questions = [⟨"Hi, shall we start?", "no thanks"⟩]) ∧
    (stepAnswer (initLoop "Software Engineer" "mid" (some "Ada") {} "Hi, shall we start?" 0)
        ⟨"no thanks", ConsentResult.denied, Except.error "unused", 5⟩).1.closed = true ∧
    (stepAnswer (initLoop "Software Engineer" "mid" (some "Ada") {} "Hi, shall we start?" 0)
        ⟨"no thanks", ConsentResult.denied, Except.error "unused", 5⟩).1.sess.history = [] :=
  consent_denied_cancels (initLoop "Software Engineer" "mid" (some "Ada") {} "Hi, shall we start?" 0)
    ⟨"no thanks", ConsentResult.denied, Except.error "unused", 5⟩ rfl rfl rfl rfl

/-- A gateway reply grading an answer 7, outside the 1-5 scale. -/
def rawSevenScore : RawParsed :=
  { next_question := some "What challenges did you face in that project?"
    answer_score := some 7
    rationale := some "Enthusiastic grading"
    question_type := some "technical" }

/-- The turn carrying `rawSevenScore` through the gateway normalisation. -/
def demoSevenInput : TurnInput :=
  ⟨"I led the migration project for two years", ConsentResult.granted,
   Except.ok (normalizeLlmResponse rawSevenScore), 60⟩

/-- **C4, counterexample.**  The claim says out-of-range scores from the
reasoning gateway are clamped or defaulted before the record is inserted;
but the normalisation only replaces falsy values (`src/app/llm.py:487`),
so a returned `answer_score` of 7 reaches the history record unchanged. -/
theorem score_seven_not_clamped :
    (stepAnswer demoState demoSevenInput).1.sess.history.map (fun t => t.score) = [7] ∧
    ¬ ((7 : Int) ≤ 5) := by
  rw [stepAnswer_main demoState demoSevenInput rfl rfl,
    mainTurnStep_continue demoState _ demoSevenInput (normalizeLlmResponse rawSevenScore) rfl
      (shouldEnd_eq_false_of_lt_min _ _ _ _ _ _
        (by norm_num [MIN_INTERVIEW_DURATION, demoSevenInput]))]
  exact ⟨by decide, by decide⟩

/-- **C4, amended.**  A missing or zero `answer_score` coming back from
the reasoning gateway is defaulted to 3, and the inserted record carries
exactly that defaulted value; a nonzero value is inserted unchanged, so
scores are in [1,5] whenever the gateway's value is, but out-of-range
nonzero values are *not* clamped. -/
theorem score_default_no_clamp (p : RawParsed) (s : SessionState) (q t : String) :
    (normalizeLlmResponse p).answer_score = pyOrInt p.answer_score 3 ∧
    (updateTurnState s q t (normalizeLlmResponse p)).history.getLast?.map
      (fun rec => rec.score) = some (pyOrInt p.answer_score 3) ∧
    (p.answer_score = none ∨ p.answer_score = some 0 →
      (normalizeLlmResponse p).answer_score = 3) ∧
    (∀ v : Int, p.answer_score = some v → 1 ≤ v → v ≤ 5 →
      1 ≤ (normalizeLlmResponse p).answer_score ∧
      (normalizeLlmResponse p).answer_score ≤ 5) := by
  refine ⟨rfl, ?_, ?_, ?_⟩
  · rw [(updateTurnState_history s q t (normalizeLlmResponse p)).1]
    simp [normalizeLlmResponse]
  · rintro (h | h) <;> simp [normalizeLlmResponse, pyOrInt, h]
  · intro v hv h1 h5
    have hv0 : v ≠ 0 := by omega
    simp [normalizeLlmResponse, pyOrInt, hv, hv0]
    omega

/-- A gateway reply with the in-range score 4. -/
def rawFourScore : RawParsed :=
  { next_question := some "How did you measure the impact of that work?"
    answer_score := some 4
    rationale := some "Good detail"
    question_type := some "technical" }

/-- Concrete instance of `score_default_no_clamp` at an in-range score. -/
theorem score_default_no_clamp_witness :
    (normalizeLlmResponse rawFourScore).answer_score = pyOrInt rawFourScore.answer_score 3 ∧
    1 ≤ (normalizeLlmResponse rawFourScore).answer_score ∧
    (normalizeLlmResponse rawFourScore).answer_score ≤ 5 :=
  ⟨(score_default_no_clamp rawFourScore demoState.sess "q" "a").1,
   ((score_default_no_clamp rawFourScore demoState.sess "q" "a").2.2.2 4 rfl
      (by norm_num) (by norm_num)).1,
   ((score_default_no_clamp rawFourScore demoState.sess "q" "a").2.2.2 4 rfl
      (by norm_num) (by norm_num)).2⟩

/-- A session three follow-ups deep on one topic. -/
def demoFollowupState : LoopState :=
  { sess := { role := "Software Engineer", level := "mid", consent_given := true
              current_topic := some "Tell me about your Kafka pipeline."
              followup_count := 3
              history := [⟨"Tell me about your Kafka pipeline.", "We stream events.", 4, "technical"⟩]
              question_count := 1
              interview_start_time := some 0 }
    current_question := "What was the hardest part of that pipeline?"
    closed := false }

/-- A fourth consecutive follow-up decision from the gateway. -/
def demoFollowupResult : LlmResult :=
  { next_question := "How did you monitor the consumer lag afterwards?"
    answer_score := 4
    rationale := "Solid detail"
    question_type := some "followup" }

/-- The answer carrying `demoFollowupResult`. -/
def demoFollowupInput : TurnInput :=
  ⟨"We had to tune the consumer groups carefully over several weeks",
   ConsentResult.granted, Except.ok demoFollowupResult, 120⟩

/-- **C5.**  When `followup_count` reaches the cap of 4, the orchestrator
does reset the counter and the topic tracking — but because
`force_new_topic` is recomputed on the next turn as `followup_count >= 4`
over the freshly reset counter (`src/app/main.py:632`), the next
reasoning-gateway call is made with the flag *clear*, contrary to the
claim and to the source's own comment at `src/app/main.py:744` ("will
force new topic in next LLM call"). -/
theorem followup_cap_reset_never_forces_new_topic :
    (trackQuestionType demoFollowupState.sess demoFollowupState.current_question
      demoFollowupInput.transcript demoFollowupResult).followup_count = 4 ∧
    (stepAnswer demoFollowupState demoFollowupInput).1.sess.followup_count = 0 ∧
    (stepAnswer demoFollowupState demoFollowupInput).1.sess.current_topic = none ∧
    forceNewTopicFlag (stepAnswer demoFollowupState demoFollowupInput).1.sess = false ∧
    (stepAnswer demoFollowupState demoFollowupInput).1.closed = false := by
  rw [stepAnswer_main demoFollowupState demoFollowupInput rfl rfl,
    mainTurnStep_continue demoFollowupState _ demoFollowupInput demoFollowupResult rfl
      (shouldEnd_eq_false_of_lt_min _ _ _ _ _ _
        (by norm_num [MIN_INTERVIEW_DURATION, demoFollowupInput]))]
  exact ⟨by decide, by decide, by decide, by decide, rfl⟩

lemma updateTurnState_clar_depth_le_one (s : SessionState) (q t : String)
    (r : LlmResult) :
    (updateTurnState s q t r).clarification_depth ≤ 1 := by
  unfold updateTurnState
  rw [(appendTurn_fields _ _ _ _).2.2.2, (updateStruggle_fields _ _).2.2.2,
    (trackCoverage_fields _ _ _).2.2.2]
  exact le_trans (followupCapReset_fields _).2.2.2
    (trackQuestionType_clarification_depth_le_one _ _ _ _)

lemma stepAnswer_clar_depth_le_one (ls : LoopState) (inp : TurnInput)
    (h : ls.sess.clarification_depth ≤ 1) :
    (stepAnswer ls inp).1.sess.clarification_depth ≤ 1 := by
  have hg := (shortAnswerGuard_fields ls.sess inp.transcript).2.2.2
  unfold stepAnswer
  split
  · exact h
  dsimp only
  split
  · rcases consentStep_sess ls (shortAnswerGuard ls.sess inp.transcript) inp with hs | hs <;>
      rw [hs] <;> exact le_trans hg h
  · rw [mainTurnStep_sess]
    exact updateTurnState_clar_depth_le_one _ _ _ _

lemma runSession_clar_depth_le_one (ls : LoopState) (inputs : List TurnInput)
    (h : ls.sess.clarification_depth ≤ 1) :
    (runSession ls inputs).sess.clarification_depth ≤ 1 := by
  induction inputs generalizing ls with
  | nil => exact h
  | cons inp rest ih => exact ih _ (stepAnswer_clar_depth_le_one ls inp h)

/-- **C6, amended.**  The stored `clarification_depth` of every reachable
session state is at most 1 — it can reach the cap of 2 only transiently
inside a turn and is reset on the spot — so it never exceeds the cap.
Clarification tracking, however, applies only to *followup*-classified
turns (not literally to every turn with score ≤ 2 or a very short
answer): on such a turn a topic key derived from the asked question is
recorded (depth 1) when it differs from the tracked key, and when the
depth reaches 2 on the same key the clarification tracking, the current
topic and the follow-up counter are all reset.  (The accompanying
`force_new_topic = True` local is dead, see C5: the next call's flag is
recomputed from the reset counter.) -/
theorem clarification_depth_cap_behavior
    (role level : String) (cn : Option String) (rc : ResumeContext)
    (g : String) (t0 : ℚ) (inputs : List TurnInput)
    (s : SessionState) (q t : String) (r : LlmResult) :
    (runSession (initLoop role level cn rc g t0) inputs).sess.clarification_depth ≤ 1 ∧
    (r.question_type = some "followup" →
      (decide (r.answer_score ≤ 2) || (t ≠ "" && decide ((pyStrip t).length < 10))) = true →
      ((s.last_clarification_topic ≠ some (topicKey r.question_type q) →
        (trackQuestionType s q t r).clarification_depth = 1 ∧
        (trackQuestionType s q t r).last_clarification_topic =
          some (topicKey r.question_type q)) ∧
       (s.last_clarification_topic = some (topicKey r.question_type q) →
        s.clarification_depth = 1 →
        (trackQuestionType s q t r).clarification_depth = 0 ∧
        (trackQuestionType s q t r).last_clarification_topic = none ∧
        (trackQuestionType s q t r).current_topic = none ∧
        (trackQuestionType s q t r).followup_count = 0))) := by
  refine ⟨runSession_clar_depth_le_one _ inputs (by simp [initLoop]), ?_⟩
  intro hq hlow
  constructor
  · intro hne
    cases htop : s.current_topic <;>
      simp_all [trackQuestionType, hq, htop, topicKey]
  · intro heq hd
    cases htop : s.current_topic <;>
      simp_all [trackQuestionType, hq, htop, topicKey]

/-- A session currently tracking one clarification on a followup topic. -/
def demoClarState : LoopState :=
  { sess := { role := "Software Engineer", level := "mid", consent_given := true
              last_clarification_topic := some "followup:Tell me about your Kafka pipel"
              clarification_depth := 1
              history := [⟨"Tell me about your Kafka pipeline.", "hm", 1, "followup"⟩]
              question_count := 1
              interview_start_time := some 0 }
    current_question := "Could you clarify who your current employer is?"
    closed := false }

/-- A low-scoring turn the gateway classifies as a clarification. -/
def demoClarResult : LlmResult :=
  { next_question := "Your resume lists SA Technologies; could you clarify where you work now?"
    answer_score := 1
    rationale := "Non-informative answer"
    question_type := some "clarification" }

/-- The non-informative answer carrying `demoClarResult`. -/
def demoClarInput : TurnInput :=
  ⟨"okay", ConsentResult.granted, Except.ok demoClarResult, 120⟩

/-- **C6, counterexample.**  The claim says a topic key is tracked for
*every* turn whose score is ≤ 2 or whose answer is extremely short; but
the tracking only happens inside the followup branch
(`src/app/main.py:693-733`): on this score-1 turn classified
"clarification" the tracking is reset instead of recording a key. -/
theorem clarification_not_tracked_outside_followup :
    demoClarResult.answer_score ≤ 2 ∧
    (stepAnswer demoClarState demoClarInput).1.sess.last_clarification_topic = none ∧
    (stepAnswer demoClarState demoClarInput).1.sess.clarification_depth = 0 := by
  rw [stepAnswer_main demoClarState demoClarInput rfl rfl,
    mainTurnStep_continue demoClarState _ demoClarInput demoClarResult rfl
      (shouldEnd_eq_false_of_lt_min _ _ _ _ _ _
        (by norm_num [MIN_INTERVIEW_DURATION, demoClarInput]))]
  exact ⟨by decide, by decide, by decide⟩

/-- Concrete instance of `clarification_depth_cap_behavior`: a fresh
session has depth 0 ≤ 1; a first low-scoring followup records the topic
key at depth 1; a second on the same key resets depth, key, topic and
follow-up count. -/
theorem clarification_depth_cap_behavior_witness :
    (runSession (initLoop "SWE" "mid" none {} "Hi" 0) []).sess.clarification_depth ≤ 1 ∧
    ((trackQuestionType demoFollowupState.sess "What was the hardest part?" "hm"
        { next_question := "Could you elaborate?", answer_score := 1
          rationale := "too short", question_type := some "followup" }).clarification_depth = 1 ∧
      (trackQuestionType demoFollowupState.sess "What was the hardest part?" "hm"
        { next_question := "Could you elaborate?", answer_score := 1
          rationale := "too short", question_type := some "followup" }).last_clarification_topic =
        some (topicKey (some "followup") "What was the hardest part?")) ∧
    ((trackQuestionType demoClarState.sess "Tell me about your Kafka pipeline." "hm"
        { next_question := "Could you elaborate on the pipeline?", answer_score := 1
          rationale := "too short", question_type := some "followup" }).clarification_depth = 0 ∧
      (trackQuestionType demoClarState.sess "Tell me about your Kafka pipeline." "hm"
        { next_question := "Could you elaborate on the pipeline?", answer_score := 1
          rationale := "too short", question_type := some "followup" }).last_clarification_topic = none) :=
  ⟨(clarification_depth_cap_behavior "SWE" "mid" none {} "Hi" 0 []
      demoState.sess "q" "t" { next_question := "n", answer_score := 3, rationale := "r" }).1,
   ((clarification_depth_cap_behavior "SWE" "mid" none {} "Hi" 0 []
      demoFollowupState.sess "What was the hardest part?" "hm"
      { next_question := "Could you elaborate?", answer_score := 1
        rationale := "too short", question_type := some "followup" }).2 rfl (by decide)).1
      (by decide),
   (((clarification_depth_cap_behavior "SWE" "mid" none {} "Hi" 0 []
      demoClarState.sess "Tell me about your Kafka pipeline." "hm"
      { next_question := "Could you elaborate on the pipeline?", answer_score := 1
        rationale := "too short", question_type := some "followup" }).2 rfl (by decide)).2
      (by decide) (by decide)).imp id (fun h => h.1)⟩

/-- The duplicate notion of the amended repetition-guard claim, written
from the spec's words with the threshold corrected to *strictly* more
than 80%: compared case-insensitively and trimmed, a question is a
duplicate of a prior one when it matches exactly, or when its token
overlap — intersection cardinality over the larger token-set
cardinality — exceeds 4/5. -/
def specDuplicate (cur prev : String) : Prop :=
  pyStrip (pyLower cur) = pyStrip (pyLower prev) ∨
    (wordSet (pyStrip (pyLower cur)) ≠ [] ∧ wordSet (pyStrip (pyLower prev)) ≠ [] ∧
     4 * max (wordSet (pyStrip (pyLower cur))).length
         (wordSet (pyStrip (pyLower prev))).length <
       5 * ((wordSet (pyStrip (pyLower cur))).filter
         (fun w => w ∈ wordSet (pyStrip (pyLower prev)))).length)

instance (cur prev : String) : Decidable (specDuplicate cur prev) := by
  unfold specDuplicate
  infer_instance

lemma specDuplicate_iff_isDuplicateOf (cur prev : String) :
    specDuplicate cur prev ↔
      isDuplicateOf (pyStrip (pyLower cur)) (pyStrip (pyLower prev)) = true := by
  simp [specDuplicate, isDuplicateOf, List.length_pos, and_assoc]

lemma isRepeat_eq_true_iff (hist : List TurnRecord) (cur : String) :
    isRepeat hist cur = true ↔ ∃ rec ∈ hist, specDuplicate cur rec.q := by
  unfold isRepeat
  rw [List.any_eq_true]
  constructor
  · rintro ⟨pq, hpq, hdup⟩
    obtain ⟨rec, hmem, rfl⟩ := List.mem_map.mp hpq
    exact ⟨rec, hmem, (specDuplicate_iff_isDuplicateOf _ _).mpr hdup⟩
  · rintro ⟨rec, hmem, hdup⟩
    exact ⟨_, List.mem_map.mpr ⟨rec, hmem, rfl⟩,
      (specDuplicate_iff_isDuplicateOf _ _).mp hdup⟩

/-- **C7, amended.**  Before emitting a generated question the
orchestrator compares it case-insensitively and trimmed against every
prior question in history, treating as a duplicate an exact match or a
token overlap *strictly above* 80% (intersection size over the larger
token-set cardinality) — not at-or-above 80% as claimed; a duplicate is
replaced by the fallback follow-up built from the tail of the candidate's
most recent answer, and any other question is accepted unchanged. -/
theorem repetition_guard_strict_threshold (hist : List TurnRecord) (t cand : String)
    (hne : pyStrip cand ≠ "") (hlen : ¬ (pyStrip cand).length < 10) (hh : hist ≠ []) :
    ((∃ rec ∈ hist, specDuplicate cand rec.q) →
      chooseNextQuestion hist t cand = fallbackFollowup hist t) ∧
    ((¬ ∃ rec ∈ hist, specDuplicate cand rec.q) →
      chooseNextQuestion hist t cand = cand) := by
  have hcand : cand ≠ "" := by
    intro h
    exact hne (by rw [h]; rfl)
  have hempty : (cand = "" || pyStrip cand = "") = false := by
    simp [hcand, hne]
  have hlenb : (decide ((pyStrip cand).length < 10)) = false := by
    simpa using hlen
  have hisEmpty : hist.isEmpty = false := by
    simpa [List.isEmpty_iff] using hh
  constructor
  · intro hdup
    have hrep : isRepeat hist cand = true := (isRepeat_eq_true_iff hist cand).mpr hdup
    simp [chooseNextQuestion, hempty, hcand, hne, hlenb, hisEmpty, hrep]
  · intro hdup
    have hrep : isRepeat hist cand = false := by
      rw [← Bool.not_eq_true, isRepeat_eq_true_iff]
      exact hdup
    simp [chooseNextQuestion, hempty, hcand, hne, hlenb, hisEmpty, hrep]

/-- A one-question history for the overlap computations. -/
def overlapHist : List TurnRecord :=
  [⟨"tell me about python more", "I built data pipelines in python daily", 4, "technical"⟩]

/-- **C7, counterexample.**  "Tell me about Python" has token overlap of
exactly 4/5 = 80% with the prior question "tell me about python more";
the claim says ≥80% is treated as a duplicate and replaced, but the
source's strict `> 0.8` comparison accepts it unchanged. -/
theorem exact_eighty_percent_overlap_accepted :
    chooseNextQuestion overlapHist "some answer" "Tell me about Python" =
      "Tell me about Python" ∧
    5 * ((wordSet (pyStrip (pyLower "Tell me about Python"))).filter
        (fun w => w ∈ wordSet (pyStrip (pyLower "tell me about python more")))).length =
      4 * max (wordSet (pyStrip (pyLower "Tell me about Python"))).length
        (wordSet (pyStrip (pyLower "tell me about python more"))).length :=
  ⟨by decide, by decide⟩

/-- Concrete instance of `repetition_guard_strict_threshold`: an exact
(case-insensitive) duplicate is replaced by the fallback follow-up, and an
unrelated question passes through unchanged. -/
theorem repetition_guard_strict_threshold_witness :
    chooseNextQuestion overlapHist "some answer" "Tell me about Python more" =
      fallbackFollowup overlapHist "some answer" ∧
    chooseNextQuestion overlapHist "some answer" "What testing strategies do you use?" =
      "What testing strategies do you use?" :=
  ⟨(repetition_guard_strict_threshold overlapHist "some answer" "Tell me about Python more"
      (by decide) (by decide) (by decide)).1
      ⟨⟨"tell me about python more", "I built data pipelines in python daily", 4, "technical"⟩,
        by decide, Or.inl (by decide)⟩,
   (repetition_guard_strict_threshold overlapHist "some answer"
      "What testing strategies do you use?" (by decide) (by decide) (by decide)).2
      (by decide)⟩

/-- The aggregate-scoring rule of the spec, written from its words: a
dimension is the mean score over the turns carrying the given tags, any
empty subset falls back to the overall mean, each dimension is rounded to
the nearest integer (Python `round`, half to even). -/
def specSubsetMean (hist : List TurnRecord) (p : TurnRecord → Bool) : ℚ :=
  if hist.filter p = [] then (hist.map (fun t => (t.score : ℚ))).sum / hist.length
  else ((hist.filter p).map (fun t => (t.score : ℚ))).sum / (hist.filter p).length

/-- The spec's `FinalEvaluation` scores: `communication` is the most
recent turn's score, `technical` the mean over technical/followup turns,
`problem_solving` over behavioral/followup, `culture_fit` over
behavioral-only, and the recommendation is derived from the mean of the
four (pre-rounding) dimension scores: ≥ 4 move_forward, ≥ 3 hold, else
reject. -/
def specEvaluation (hist : List TurnRecord) (lastScore : Int) : EvaluationScores :=
  let comm : ℚ := (lastScore : ℚ)
  let tech := specSubsetMean hist (fun t => t.type = "technical" || t.type = "followup")
  let prob := specSubsetMean hist (fun t => t.type = "behavioral" || t.type = "followup")
  let cult := specSubsetMean hist (fun t => t.type = "behavioral")
  let m := (comm + tech + prob + cult) / 4
  { communication := pyRound comm
    technical := pyRound tech
    problem_solving := pyRound prob
    culture_fit := pyRound cult
    recommendation := if 4 ≤ m then "move_forward" else if 3 ≤ m then "hold" else "reject" }

/-- **C9.**  When the reasoning gateway supplies no final report, the
generated `FinalEvaluation` matches the spec's aggregation rule: with the
last reasoning result grading the most recent turn (so its score equals
the most recent turn's score), communication is that score, the other
three dimensions are the tag-filtered means with overall-mean fallback,
all rounded to the nearest integer, and the recommendation comes from the
mean of the four dimension scores (taken before rounding, as in the
source) with thresholds 4 and 3. -/
theorem final_evaluation_aggregation (s : SessionState) (last : LlmResult)
    (rec : TurnRecord) (hlast : s.history.getLast? = some rec)
    (hscore : last.answer_score = rec.score) :
    (generateFinalEvaluation s last).evaluation = specEvaluation s.history rec.score ∧
    (generateFinalEvaluation s last).status = "completed" ∧
    (generateFinalEvaluation s last).questions =
      s.history.map (fun t => QaItem.mk t.q t.a) := by
  have hempty : s.history.isEmpty = false := by
    cases h : s.history with
    | nil => rw [h] at hlast; simp at hlast
    | cons a l => simp [h]
  refine ⟨?_, rfl, rfl⟩
  simp only [generateFinalEvaluation, specEvaluation, specSubsetMean, subsetMean,
    hempty, Bool.false_eq_true, if_false, hscore, List.length_map, List.isEmpty_iff]

/-- A two-turn session for the aggregation witness. -/
def demoFinalState : SessionState :=
  { role := "Software Engineer", level := "mid", consent_given := true
    history := [⟨"Intro yourself.", "I am Ada.", 4, "technical"⟩,
                ⟨"Describe a conflict.", "We disagreed and resolved it.", 5, "behavioral"⟩]
    question_count := 2
    interview_start_time := some 0 }

/-- The last reasoning result of that session. -/
def demoFinalResult : LlmResult :=
  { next_question := "unused", answer_score := 5, rationale := "strong close"
    end_interview := true }

/-- Concrete instance of `final_evaluation_aggregation`. -/
theorem final_evaluation_aggregation_witness :
    (generateFinalEvaluation demoFinalState demoFinalResult).evaluation =
      specEvaluation demoFinalState.history 5 ∧
    (generateFinalEvaluation demoFinalState demoFinalResult).status = "completed" ∧
    (generateFinalEvaluation demoFinalState demoFinalResult).questions =
      demoFinalState.history.map (fun t => QaItem.mk t.q t.a) :=
  final_evaluation_aggregation demoFinalState demoFinalResult
    ⟨"Describe a conflict.", "We disagreed and resolved it.", 5, "behavioral"⟩
    (by decide) rfl
